import Mathlib

/-!
Verification development for the waste-classification pipeline in
`main.py` (an offline waste-sorting assistant).  The pure decision logic
of the source file is embedded shallowly: the JSON extraction routine
`extract_json_from_text`, the static category/disposal catalogs, the
keyword-based `heuristic_classify`, the orchestrators `classify_text` and
`classify_image` with their content-addressed caches, and the temp-file
cleanup discipline of `query_ollama`'s subprocess fallback.

External libraries and I/O (the Ollama HTTP/CLI backends, PIL image
decoding, OCR, and the md5 digest) are passed in as explicit oracle
parameters; everything the repository itself computes is transcribed.
Python dicts are modelled as association lists (insertion prepends and
lookup takes the first match, which observationally matches overwrite
semantics); Python floats are modelled as exact rationals.
-/

namespace WasteSorter

/-! ### Character helpers

Named constants for delimiter characters used by the JSON scanner. -/

def lbraceC : Char := Char.ofNat 123

def rbraceC : Char := Char.ofNat 125

def lbrackC : Char := Char.ofNat 91

def rbrackC : Char := Char.ofNat 93

def quoteC : Char := Char.ofNat 34

def backslashC : Char := Char.ofNat 92

/-- JSON whitespace characters (the set skipped by `json.loads`). -/
def isJsonWs (c : Char) : Bool :=
  c == ' ' || c == '\t' || c == '\n' || c == '\r'

def skipWs (cs : List Char) : List Char :=
  cs.dropWhile isJsonWs

/-! ### Exact fractions standing in for Python floats

Python float literals in the source (`0.8`, keyword confidences, the
`0.5` default) are decimal constants; they are modelled exactly as
fractions.  Comparisons and equality go through cross-multiplication on
`Int`, which the kernel evaluates directly (Mathlib's `ℚ` normalizes
through `Nat.gcd`, which blocks kernel evaluation of concrete runs).
`PyRat.toRat` maps a fraction to the mathematical rational it denotes. -/

structure PyRat where
  num : Int
  den : Nat
deriving DecidableEq

def PyRat.toRat (q : PyRat) : ℚ := (q.num : ℚ) / (q.den : ℚ)

/-- Exact `<` on fractions (denominators are positive in every value this
development constructs). -/
def PyRat.blt (a b : PyRat) : Bool :=
  decide (a.num * (b.den : Int) < b.num * (a.den : Int))

/-! ### JSON values

Models the values produced by Python's `json.loads`: integer literals
become `int`, decimal/exponent literals become `float` (modelled as an
exact fraction), and objects keep their fields in textual order. -/

inductive Json where
  | null
  | bool (b : Bool)
  | int (n : Int)
  | float (q : PyRat)
  | str (s : String)
  | arr (elems : List Json)
  | obj (fields : List (String × Json))

/-- Python `dict.get(key, default)` on a parsed JSON object.  Duplicate
keys in the source text overwrite earlier ones in a Python dict, so the
last binding wins.  On non-objects the default is returned (the callers
only apply this to parsed objects). -/
def Json.get (j : Json) (key : String) (default : Json) : Json :=
  match j with
  | .obj fields =>
    match fields.reverse.find? (fun p => p.1 == key) with
    | some p => p.2
    | none => default
  | _ => default

/-- Python truthiness of a parsed JSON value (`if parsed:` in the source):
`None`, `False`, `0`, `0.0`, `""`, `[]` and `\x7b\x7d` are falsy. -/
def Json.isTruthy : Json → Bool
  | .null => false
  | .bool b => b
  | .int n => n != 0
  | .float q => q.num != 0
  | .str s => !s.isEmpty
  | .arr l => !l.isEmpty
  | .obj l => !l.isEmpty

/-! ### Python numeric coercions

`classify_text` / `classify_image` apply `int(...)` and `float(...)` to
fields of the parsed reply; both raise on values that cannot be coerced,
which is modelled with `Except`. -/

/-- Truncation toward zero of a fraction, as Python `int(float)` does. -/
def ratTrunc (q : PyRat) : Int :=
  if 0 ≤ q.num then (q.num.toNat / q.den : Nat)
  else -((-q.num).toNat / q.den : Nat)

def digitVal (c : Char) : Nat := c.toNat - 48

def digitsToNat (ds : List Char) : Nat :=
  ds.foldl (fun n c => 10 * n + digitVal c) 0

/-- Python whitespace stripped by `str.strip()` and by `int(str)`. -/
def isPyWs (c : Char) : Bool :=
  c == ' ' || c == '\t' || c == '\n' || c == '\r' || c == Char.ofNat 11 || c == Char.ofNat 12

def pyStrip (cs : List Char) : List Char :=
  ((cs.dropWhile isPyWs).reverse.dropWhile isPyWs).reverse

/-- Python `int(s)` on a string: optional surrounding whitespace, optional
sign, then decimal digits (digit-group underscores are not modelled; no
claim exercises them). -/
def pyIntOfString (s : String) : Except String Int :=
  let cs := pyStrip s.data
  let (neg, ds) :=
    match cs with
    | c :: rest =>
      if c == '-' then (true, rest)
      else if c == '+' then (false, rest) else (false, cs)
    | [] => (false, ([] : List Char))
  if ds.isEmpty || !(ds.all Char.isDigit) then .error "ValueError"
  else .ok (if neg then -(digitsToNat ds : Int) else (digitsToNat ds : Int))

/-- Python `int(x)` on a parsed JSON value. -/
def pyInt : Json → Except String Int
  | .int n => .ok n
  | .float q => .ok (ratTrunc q)
  | .bool b => .ok (if b then 1 else 0)
  | .str s => pyIntOfString s
  | .null => .error "TypeError"
  | .arr _ => .error "TypeError"
  | .obj _ => .error "TypeError"

/-- Python `float(x)` on a parsed JSON value (string forms beyond plain
integers, such as `inf` or `"1.5"`, are not modelled; no claim exercises
them). -/
def pyFloat : Json → Except String PyRat
  | .int n => .ok ⟨n, 1⟩
  | .float q => .ok q
  | .bool b => .ok (if b then ⟨1, 1⟩ else ⟨0, 1⟩)
  | .str s =>
    match pyIntOfString s with
    | .ok n => .ok ⟨n, 1⟩
    | .error e => .error e
  | .null => .error "TypeError"
  | .arr _ => .error "TypeError"
  | .obj _ => .error "TypeError"

/-! ### A model of `json.loads`

A recursive-descent parser for the strict JSON grammar accepted by
Python's `json.loads` (the `json` module is an external library; this is
its model).  Recursion is bounded by explicit fuel; the top-level entry
supplies more fuel than any input can consume. -/

def hexVal (c : Char) : Option Nat :=
  if c.isDigit then some (c.toNat - 48)
  else if 97 ≤ c.toNat ∧ c.toNat ≤ 102 then some (c.toNat - 87)
  else if 65 ≤ c.toNat ∧ c.toNat ≤ 70 then some (c.toNat - 55)
  else none

/-- Parse the body of a JSON string literal (the opening quote has been
consumed).  Strict mode: raw control characters are rejected; `\uXXXX`
escapes are accepted for non-surrogate code points (Lean `Char` cannot
hold lone surrogates; no claim exercises them). -/
def parseJString : Nat → List Char → List Char → Option (String × List Char)
  | 0, _, _ => none
  | _, [], _ => none
  | fuel+1, c :: rest, acc =>
    if c == quoteC then some (String.mk acc.reverse, rest)
    else if c == backslashC then
      match rest with
      | [] => none
      | e :: rest2 =>
        if e == quoteC then parseJString fuel rest2 (quoteC :: acc)
        else if e == backslashC then parseJString fuel rest2 (backslashC :: acc)
        else if e == '/' then parseJString fuel rest2 ('/' :: acc)
        else if e == 'b' then parseJString fuel rest2 (Char.ofNat 8 :: acc)
        else if e == 'f' then parseJString fuel rest2 (Char.ofNat 12 :: acc)
        else if e == 'n' then parseJString fuel rest2 ('\n' :: acc)
        else if e == 'r' then parseJString fuel rest2 ('\r' :: acc)
        else if e == 't' then parseJString fuel rest2 ('\t' :: acc)
        else if e == 'u' then
          match rest2 with
          | h1 :: h2 :: h3 :: h4 :: rest3 =>
            match hexVal h1, hexVal h2, hexVal h3, hexVal h4 with
            | some v1, some v2, some v3, some v4 =>
              let code := ((v1 * 16 + v2) * 16 + v3) * 16 + v4
              if code < 55296 ∨ 57343 < code then
                parseJString fuel rest3 (Char.ofNat code :: acc)
              else none
            | _, _, _, _ => none
          | _ => none
        else none
    else if c.toNat < 32 then none
    else parseJString fuel rest (c :: acc)

def spanDigits (cs : List Char) : List Char × List Char :=
  (cs.takeWhile Char.isDigit, cs.dropWhile Char.isDigit)

/-- Parse a JSON number.  Integer literals (no fraction, no exponent)
produce `Json.int`; anything with a fraction or exponent produces
`Json.float`, exactly as `json.loads` distinguishes `int` from `float`. -/
def parseNumber (cs : List Char) : Option (Json × List Char) :=
  let (neg, cs1) :=
    match cs with
    | c :: rest => if c == '-' then (true, rest) else (false, cs)
    | [] => (false, ([] : List Char))
  match cs1 with
  | [] => none
  | c0 :: rest0 =>
    if !c0.isDigit then none else
    let (ids, cs2) := if c0 == '0' then ([c0], rest0) else spanDigits cs1
    let intPart : Nat := digitsToNat ids
    let hasFrac : Bool := match cs2 with | d :: _ => d == '.' | [] => false
    let (fds, cs3) :=
      if hasFrac then spanDigits cs2.tail else (([] : List Char), cs2)
    if hasFrac ∧ fds.isEmpty then none else
    let hasExp : Bool := match cs3 with | e :: _ => e == 'e' || e == 'E' | [] => false
    let (expNeg, eds, cs4) :=
      if hasExp then
        match cs3.tail with
        | s :: rests =>
          if s == '+' then
            let (d, r) := spanDigits rests
            (false, d, r)
          else if s == '-' then
            let (d, r) := spanDigits rests
            (true, d, r)
          else
            let (d, r) := spanDigits cs3.tail
            (false, d, r)
        | [] => (false, ([] : List Char), ([] : List Char))
      else (false, ([] : List Char), cs3)
    if hasExp ∧ eds.isEmpty then none else
    if !hasFrac ∧ !hasExp then
      some (Json.int (if neg then -(intPart : Int) else (intPart : Int)), cs2)
    else
      let mantNum : Nat := intPart * 10 ^ fds.length + digitsToNat fds
      let mantDen : Nat := 10 ^ fds.length
      let e : Nat := digitsToNat eds
      let v : PyRat :=
        if hasExp ∧ expNeg then ⟨(mantNum : Int), mantDen * 10 ^ e⟩
        else ⟨(mantNum : Int) * (10 : Int) ^ e, mantDen⟩
      some (Json.float (if neg then ⟨-v.num, v.den⟩ else v), cs4)

mutual

def parseValue : Nat → List Char → Option (Json × List Char)
  | 0, _ => none
  | fuel+1, cs =>
    match skipWs cs with
    | [] => none
    | c :: rest =>
      if c == lbraceC then
        match skipWs rest with
        | d :: rest2 =>
          if d == rbraceC then some (Json.obj [], rest2)
          else parseMembers fuel (skipWs rest) []
        | [] => none
      else if c == lbrackC then
        match skipWs rest with
        | d :: rest2 =>
          if d == rbrackC then some (Json.arr [], rest2)
          else parseElems fuel (skipWs rest) []
        | [] => none
      else if c == quoteC then
        match parseJString (rest.length + 1) rest [] with
        | some (s, rest2) => some (Json.str s, rest2)
        | none => none
      else if c == 't' then
        match rest with
        | 'r' :: 'u' :: 'e' :: rest2 => some (Json.bool true, rest2)
        | _ => none
      else if c == 'f' then
        match rest with
        | 'a' :: 'l' :: 's' :: 'e' :: rest2 => some (Json.bool false, rest2)
        | _ => none
      else if c == 'n' then
        match rest with
        | 'u' :: 'l' :: 'l' :: rest2 => some (Json.null, rest2)
        | _ => none
      else parseNumber (c :: rest)

def parseMembers : Nat → List Char → List (String × Json) → Option (Json × List Char)
  | 0, _, _ => none
  | fuel+1, cs, acc =>
    match skipWs cs with
    | c :: rest =>
      if c == quoteC then
        match parseJString (rest.length + 1) rest [] with
        | some (key, rest2) =>
          match skipWs rest2 with
          | d :: rest3 =>
            if d == ':' then
              match parseValue fuel rest3 with
              | some (v, rest4) =>
                match skipWs rest4 with
                | e :: rest5 =>
                  if e == ',' then parseMembers fuel rest5 (acc ++ [(key, v)])
                  else if e == rbraceC then some (Json.obj (acc ++ [(key, v)]), rest5)
                  else none
                | [] => none
              | none => none
            else none
          | [] => none
        | none => none
      else none
    | [] => none

def parseElems : Nat → List Char → List Json → Option (Json × List Char)
  | 0, _, _ => none
  | fuel+1, cs, acc =>
    match parseValue fuel cs with
    | some (v, rest) =>
      match skipWs rest with
      | e :: rest2 =>
        if e == ',' then parseElems fuel rest2 (acc ++ [v])
        else if e == rbrackC then some (Json.arr (acc ++ [v]), rest2)
        else none
      | [] => none
    | none => none

end

/-- Model of Python `json.loads`: parse one value and require only
whitespace to remain (otherwise `json.loads` raises, i.e. `none`). -/
def json_loads (s : String) : Option Json :=
  match parseValue (2 * s.data.length + 4) s.data with
  | some (v, rest) => if (skipWs rest).isEmpty then some v else none
  | none => none

/-! ### `extract_json_from_text` (src/main.py:390-412)

Finds the first `\x7b`, then scans forward tracking naive brace depth; at
every point where the depth returns to zero it tries `json.loads` on the
span from the first `\x7b` through the current character, returning the
first successful parse.  (On a failed parse the Python loop `continue`s,
so later, longer spans with the same start are still attempted.) -/

/-- `text.find("\x7b")`: drop characters before the first opening brace;
`none` when there is no brace (Python `start == -1`). -/
def dropUntilBrace : List Char → Option (List Char)
  | [] => none
  | c :: rest => if c == lbraceC then some (c :: rest) else dropUntilBrace rest

/-- The scanning loop of `extract_json_from_text`; `acc` is the span
accumulated from the first brace, `depth` the current nesting depth.
Returns the parsed value together with the exact span that parsed. -/
def extractLoop : List Char → List Char → Int → Option (String × Json)
  | [], _, _ => none
  | c :: rest, acc, depth =>
    let acc2 := acc ++ [c]
    if c == lbraceC then extractLoop rest acc2 (depth + 1)
    else if c == rbraceC then
      if depth - 1 == 0 then
        match json_loads (String.mk acc2) with
        | some v => some (String.mk acc2, v)
        | none => extractLoop rest acc2 (depth - 1)
      else extractLoop rest acc2 (depth - 1)
    else extractLoop rest acc2 depth

def extract_raw (text : String) : Option (String × Json) :=
  if text.isEmpty then none
  else
    match dropUntilBrace text.data with
    | none => none
    | some suffix => extractLoop suffix [] 0

/-- `extract_json_from_text` itself: the parsed value (or absent). -/
def extract_json_from_text (text : String) : Option Json :=
  (extract_raw text).map (fun p => p.2)

/-- The span of raw text that the successful `json.loads` consumed (the
`json_str` slice at the returning iteration). -/
def extract_block (text : String) : Option String :=
  (extract_raw text).map (fun p => p.1)

/-- The successive candidate spans the loop submits to `json.loads`: every
prefix of the scan (starting at the first brace) ending where the naive
depth returns to zero.  The first element is the "first balanced
brace-delimited block". -/
def candLoop : List Char → List Char → Int → List String
  | [], _, _ => []
  | c :: rest, acc, depth =>
    let acc2 := acc ++ [c]
    if c == lbraceC then candLoop rest acc2 (depth + 1)
    else if c == rbraceC then
      if depth - 1 == 0 then String.mk acc2 :: candLoop rest acc2 (depth - 1)
      else candLoop rest acc2 (depth - 1)
    else candLoop rest acc2 depth

def brace_candidates (text : String) : List String :=
  if text.isEmpty then []
  else
    match dropUntilBrace text.data with
    | none => []
    | some suffix => candLoop suffix [] 0

/-- The scanning loop tries exactly the candidate spans, in order, and
returns the first successful parse. -/
theorem extractLoop_eq_candidates (cs : List Char) :
    ∀ acc depth, (extractLoop cs acc depth).map (fun p => p.2)
      = (candLoop cs acc depth).findSome? json_loads := by
  induction cs with
  | nil => intro acc depth; rfl
  | cons c rest ih =>
    intro acc depth
    simp only [extractLoop, candLoop]
    by_cases h1 : c == lbraceC
    · simp [h1, ih]
    · simp only [h1, Bool.false_eq_true, if_false]
      by_cases h2 : c == rbraceC
      · simp only [h2, if_true]
        by_cases h3 : depth - 1 == 0
        · simp only [h3, if_true, List.findSome?]
          cases hj : json_loads (String.mk (acc ++ [c])) with
          | none => simpa [hj] using ih (acc ++ [c]) (depth - 1)
          | some v => simp [hj]
        · simp [h3, ih]
      · simp [h2, ih]

/-! ### The category catalog (src/main.py:38-99)

`CATEGORIES`: a static dict from category identifier (0-9) to label, icon,
color and a one-line disposal hint.  Modelled as an association list with
`dict.get`-style lookup. -/

structure Category where
  name : String
  icon : String
  color : String
  disposal : String
deriving DecidableEq

def CATEGORY_9 : Category :=
  ⟨"Other/Unknown", "❓", "#9E9E9E",
   "Check local guidelines. When in doubt, contact waste management authority."⟩

def CATEGORIES_TABLE : List (Int × Category) :=
  [(0, ⟨"Organic Waste", "🍃", "#4CAF50",
        "Compost or use green waste bin. Avoid plastic bags."⟩),
   (1, ⟨"Inorganic Waste", "🥤", "#2196F3",
        "Recycle if possible. Rinse containers before disposal."⟩),
   (2, ⟨"Hazardous Waste", "☣️", "#F44336",
        "Take to hazardous waste collection facility. Never mix with regular trash."⟩),
   (3, ⟨"Electronic Waste (E-Waste)", "📱", "#9C27B0",
        "Recycle at e-waste collection points. Remove batteries if possible."⟩),
   (4, ⟨"Construction & Demolition Waste", "🧱", "#795548",
        "Rent a dumpster or use construction waste collection service."⟩),
   (5, ⟨"Industrial Waste", "🏭", "#607D8B",
        "Follow industrial waste regulations. Contact waste management company."⟩),
   (6, ⟨"Biomedical Waste", "💉", "#E91E63",
        "Use puncture-proof containers. Return to medical facility or pharmacy."⟩),
   (7, ⟨"Radioactive Waste", "☢️", "#FF9800",
        "Contact specialized radioactive waste handlers. Follow strict protocols."⟩),
   (8, ⟨"Special - Textiles/Paper/Agricultural", "👕", "#009688",
        "Textiles: donate or recycle. Paper: recycle. Agricultural: compost if organic."⟩),
   (9, CATEGORY_9)]

/-- `CATEGORIES.get(id)`: `some` exactly on the keys 0-9. -/
def CATEGORIES (id : Int) : Option Category :=
  (CATEGORIES_TABLE.find? (fun p => p.1 == id)).map (fun p => p.2)

/-! ### The disposal-guidance catalog (src/main.py:102-373) -/

structure DisposalInfo where
  steps : List String
  options : String
  prep : String
  safety : String
  tips : List String
  mistakes : List String
  description : String
  reason : String
  environmental_impact : String
deriving DecidableEq

def DISPOSAL_9 : DisposalInfo :=
  { steps :=
      ["Research the item\x27s composition online",
       "Contact local waste management authority",
       "Check manufacturer\x27s disposal recommendations",
       "If unsure, treat as general waste",
       "Document for future reference"],
    options := "General waste collection, local waste management authority, manufacturer guidance",
    prep := "Clean the item, remove any hazardous components if identifiable",
    safety := "Handle with care if composition is unknown, wear gloves",
    tips :=
      ["Take a photo and search online for disposal guidance",
       "Call your local waste management hotline",
       "Check if the manufacturer has a take-back program",
       "When in doubt, dispose in general waste",
       "Consider if the item can be repurposed"],
    mistakes :=
      ["Assuming unknown items are recyclable",
       "Mixing unknown items with hazardous waste",
       "Not researching proper disposal methods"],
    description := "Other/Unknown waste includes items that don\x27t clearly fit into other categories or whose composition is uncertain, requiring special consideration for proper disposal.",
    reason := "This category exists for items that are difficult to classify, ensuring they receive appropriate attention rather than being improperly disposed of in general waste.",
    environmental_impact := "Proper handling of unknown waste prevents environmental contamination and ensures that potentially hazardous materials are not mixed with general waste streams." }

def DISPOSAL_INFO_TABLE : List (Int × DisposalInfo) :=
  [(0,
    { steps :=
        ["Collect all organic waste in a compostable container",
         "Remove any non-organic materials (plastic, metal)",
         "Chop large items into smaller pieces for faster decomposition",
         "Add to compost bin or green waste collection",
         "Cover with brown materials (leaves, paper) to reduce odor"],
      options := "Home compost bin, municipal green waste collection, community composting program",
      prep := "Remove packaging, rinse if contaminated with non-organic materials",
      safety := "Avoid composting meat, dairy, or diseased plants in home compost",
      tips :=
        ["Keep compost moist but not wet",
         "Turn compost regularly for aeration",
         "Balance green and brown materials",
         "Use compost in garden after 2-3 months",
         "Consider vermicomposting for apartment dwellers"],
      mistakes :=
        ["Composting meat or dairy which attracts pests",
         "Adding diseased plants that can spread pathogens",
         "Not turning compost leading to anaerobic decomposition"],
      description := "Organic waste includes food scraps, yard trimmings, and other biodegradable materials that can be broken down by microorganisms.",
      reason := "Organic waste is categorized separately because it can be composted and turned into nutrient-rich soil, reducing landfill waste.",
      environmental_impact := "Proper composting of organic waste reduces methane emissions from landfills and creates valuable fertilizer for gardens and farms." }),
   (1,
    { steps :=
        ["Empty contents completely and rinse container",
         "Remove caps, lids, and labels if possible",
         "Flatten items to save space in recycling bin",
         "Sort by material type (plastic, glass, metal)",
         "Place in appropriate recycling bin or take to recycling center"],
      options := "Curbside recycling, drop-off recycling centers, retailer take-back programs",
      prep := "Clean thoroughly, remove non-recyclable parts, check local recycling codes",
      safety := "Handle broken glass with care, wear gloves when handling sharp edges",
      tips :=
        ["Know your local recycling rules as they vary by location",
         "Rinse containers to prevent contamination",
         "Remove caps and lids as they may be different materials",
         "Flatten cardboard boxes to save space",
         "When in doubt, throw it out to avoid recycling contamination"],
      mistakes :=
        ["Not rinsing containers causing contamination",
         "Recycling materials not accepted locally",
         "Including plastic bags in curbside recycling"],
      description := "Inorganic waste includes materials like plastic, glass, metal, and other non-biodegradable items that can often be recycled.",
      reason := "Inorganic waste is categorized based on its recyclability and the need to separate it from organic waste to prevent contamination.",
      environmental_impact := "Recycling inorganic materials conserves natural resources, reduces energy consumption, and decreases pollution from manufacturing new products." }),
   (2,
    { steps :=
        ["Keep in original container if possible",
         "Seal tightly to prevent leaks",
         "Label clearly as hazardous waste",
         "Store in a cool, dry place away from children and pets",
         "Take to designated hazardous waste collection facility"],
      options := "Household hazardous waste collection events, permanent drop-off facilities, retailer take-back programs",
      prep := "Never mix different hazardous materials, keep original labels",
      safety := "Wear protective gear, ensure good ventilation, keep away from heat sources",
      tips :=
        ["Check local hazardous waste collection schedules",
         "Never pour down drains or toilets",
         "Store in original containers with labels intact",
         "Keep away from children and pets",
         "Use up completely before disposal when possible"],
      mistakes :=
        ["Pouring hazardous chemicals down drains",
         "Mixing different hazardous materials",
         "Throwing in regular trash causing environmental harm"],
      description := "Hazardous waste includes materials that are toxic, flammable, corrosive, or reactive, such as batteries, paint, chemicals, and pesticides.",
      reason := "Hazardous waste requires special handling because it can pose serious risks to human health and the environment if not disposed of properly.",
      environmental_impact := "Improper disposal of hazardous waste can contaminate soil, water, and air, harming wildlife and ecosystems, and potentially causing long-term health problems in humans." }),
   (3,
    { steps :=
        ["Back up and erase all personal data",
         "Remove batteries if possible",
         "Separate components by material type",
         "Bundle cables and accessories together",
         "Take to certified e-waste recycling facility"],
      options := "E-waste recycling centers, retailer take-back programs, manufacturer mail-back programs",
      prep := "Delete personal data, remove batteries, separate accessories",
      safety := "Unplug devices before disassembly, handle CRT monitors carefully",
      tips :=
        ["Consider donating working electronics",
         "Remove batteries before recycling",
         "Erase personal data completely",
         "Check for manufacturer recycling programs",
         "Look for certified e-waste recyclers"],
      mistakes :=
        ["Not erasing personal data before recycling",
         "Throwing electronics in regular trash",
         "Including batteries with e-waste without removal"],
      description := "Electronic waste (e-waste) includes discarded electronic devices such as computers, phones, TVs, printers, and other electronic equipment.",
      reason := "E-waste is categorized separately because it contains valuable materials that can be recycled, as well as hazardous components that require special handling.",
      environmental_impact := "Proper e-waste recycling recovers valuable metals, reduces toxic substances in landfills, and prevents environmental contamination from heavy metals and other hazardous materials." }),
   (4,
    { steps :=
        ["Sort materials by type (concrete, wood, metal, etc.)",
         "Remove hazardous materials (asbestos, lead paint)",
         "Clean materials to remove contamination",
         "Break down large items into manageable pieces",
         "Rent a dumpster or use construction waste collection service"],
      options := "Construction waste collection services, recycling facilities, landfill disposal",
      prep := "Sort by material type, remove hazardous components, clean if contaminated",
      safety := "Wear protective gear, be aware of hazardous materials, use proper lifting techniques",
      tips :=
        ["Salvage reusable materials for future projects",
         "Recycle metal, concrete, and wood when possible",
         "Hire professionals for hazardous material removal",
         "Plan waste management before starting project",
         "Consider deconstruction instead of demolition"],
      mistakes :=
        ["Not sorting materials leading to unnecessary landfill use",
         "Improper handling of hazardous materials",
         "Overfilling dumpsters creating safety hazards"],
      description := "Construction and demolition waste includes materials generated from building, renovation, and demolition projects, such as concrete, wood, metal, and drywall.",
      reason := "Construction waste is categorized separately due to its bulk, potential for recycling, and the presence of hazardous materials that may require special handling.",
      environmental_impact := "Proper management of construction waste reduces landfill use, conserves resources through recycling, and prevents contamination from hazardous building materials." }),
   (5,
    { steps :=
        ["Identify waste type and composition",
         "Segregate hazardous from non-hazardous waste",
         "Document waste characteristics and origin",
         "Package according to regulatory requirements",
         "Contract with licensed industrial waste handler"],
      options := "Licensed industrial waste management companies, specialized treatment facilities",
      prep := "Analyze waste composition, segregate by type, document properly",
      safety := "Follow OSHA regulations, use proper PPE, train personnel on handling procedures",
      tips :=
        ["Conduct waste audit to identify reduction opportunities",
         "Explore recycling and reuse options",
         "Stay updated on waste regulations",
         "Implement waste minimization practices",
         "Maintain proper documentation for compliance"],
      mistakes :=
        ["Not properly characterizing waste type",
         "Mixing incompatible waste materials",
         "Improper documentation leading to compliance issues"],
      description := "Industrial waste includes materials generated from manufacturing, industrial processes, and other commercial activities, which may include chemicals, byproducts, and other specialized waste.",
      reason := "Industrial waste is categorized separately because it often requires specialized handling, treatment, and disposal methods due to its potential hazards and regulatory requirements.",
      environmental_impact := "Proper industrial waste management prevents environmental contamination, ensures regulatory compliance, and can lead to resource recovery and waste reduction through recycling and treatment." }),
   (6,
    { steps :=
        ["Place in puncture-proof biohazard container",
         "Seal container securely",
         "Label with biohazard symbol and contents",
         "Store in designated biomedical waste area",
         "Contact licensed biomedical waste disposal service"],
      options := "Licensed biomedical waste disposal companies, medical facilities, pharmacies",
      prep := "Use approved containers, never overfill, keep containers closed",
      safety := "Wear appropriate PPE, handle sharps carefully, follow exposure protocols",
      tips :=
        ["Never recap needles by hand",
         "Use safety-engineered sharps containers",
         "Train all personnel on proper handling",
         "Keep containers in designated areas only",
         "Report any exposures immediately"],
      mistakes :=
        ["Not using proper biohazard containers",
         "Overfilling containers creating safety risks",
         "Improper sharps handling causing needlestick injuries"],
      description := "Biomedical waste includes any waste that contains infectious materials or potentially infectious substances, such as used needles, bandages, blood products, and other medical waste.",
      reason := "Biomedical waste is categorized separately because it poses specific health risks and requires special handling, treatment, and disposal methods to prevent infection and contamination.",
      environmental_impact := "Proper biomedical waste disposal prevents the spread of infectious diseases, protects healthcare workers and the public, and ensures safe treatment and destruction of potentially hazardous materials." }),
   (7,
    { steps :=
        ["Isolate in designated radioactive waste container",
         "Label with radiation symbol and isotope information",
         "Document activity level and half-life",
         "Store in secure, shielded location",
         "Contact licensed radioactive waste handler"],
      options := "Licensed radioactive waste disposal facilities, specialized handlers",
      prep := "Identify isotope and activity level, use appropriate shielding",
      safety := "Follow radiation safety protocols, minimize exposure time, use shielding",
      tips :=
        ["Monitor radiation levels regularly",
         "Follow ALARA principles (As Low As Reasonably Achievable)",
         "Maintain detailed records",
         "Train personnel on radiation safety",
         "Have emergency procedures in place"],
      mistakes :=
        ["Not properly identifying radioactive materials",
         "Improper storage leading to exposure risks",
         "Not following regulatory requirements"],
      description := "Radioactive waste contains radioactive materials that emit ionizing radiation, including materials from nuclear power plants, medical facilities, and industrial applications.",
      reason := "Radioactive waste is categorized separately because it requires specialized handling, storage, and disposal methods to protect human health and the environment from radiation exposure.",
      environmental_impact := "Proper radioactive waste management prevents radiation exposure, protects ecosystems, and ensures long-term containment of radioactive materials to prevent environmental contamination." }),
   (8,
    { steps :=
        ["Sort items by material type (textiles, paper, agricultural)",
         "Clean items if soiled or contaminated",
         "Prepare for appropriate disposal method",
         "Package according to material requirements",
         "Take to appropriate collection point"],
      options := "Textile recycling bins, paper recycling, agricultural waste collection",
      prep := "Clean items, remove non-recyclable components, sort by material",
      safety := "Handle agricultural chemicals with care, wear gloves when handling soiled textiles",
      tips :=
        ["Donate usable clothing and textiles",
         "Compost clean paper products",
         "Recycle agricultural plastics when possible",
         "Reuse paper for crafts or note-taking",
         "Properly dispose of pesticide containers"],
      mistakes :=
        ["Not sorting materials properly",
         "Including contaminated items in recycling",
         "Not cleaning items before recycling"],
      description := "Special waste includes textiles, paper, agricultural waste, and other materials that don\x27t fit neatly into other categories but have specific disposal requirements.",
      reason := "Special waste is categorized separately because these materials often have unique recycling or disposal options that differ from general waste streams.",
      environmental_impact := "Proper management of special waste materials promotes recycling, reduces landfill use, and ensures that materials are processed in the most environmentally friendly way possible." }),
   (9, DISPOSAL_9)]

/-- `DISPOSAL_INFO.get(id)`: `some` exactly on the keys 0-9. -/
def DISPOSAL_INFO (id : Int) : Option DisposalInfo :=
  (DISPOSAL_INFO_TABLE.find? (fun p => p.1 == id)).map (fun p => p.2)

/-! ### `get_category_details` (src/main.py:418-436)

`CATEGORIES.get(category_id, CATEGORIES[9])` and
`DISPOSAL_INFO.get(category_id, DISPOSAL_INFO[9])`: unknown identifiers
fall back to the id-9 entry, but the returned `category_id` field keeps
the original identifier. -/

structure CategoryDetails where
  category_id : Int
  category_name : String
  description : String
  reason : String
  disposal_steps : List String
  environmental_impact : String
  common_mistakes : List String
  additional_tips : List String
  local_disposal_options : String
  preparation_requirements : String
  safety_precautions : String
  confidence : PyRat
deriving DecidableEq

def get_category_details (category_id : Int) : CategoryDetails :=
  let category := (CATEGORIES category_id).getD CATEGORY_9
  let info := (DISPOSAL_INFO category_id).getD DISPOSAL_9
  { category_id := category_id,
    category_name := category.name,
    description := info.description,
    reason := info.reason,
    disposal_steps := info.steps,
    environmental_impact := info.environmental_impact,
    common_mistakes := info.mistakes,
    additional_tips := info.tips,
    local_disposal_options := info.options,
    preparation_requirements := info.prep,
    safety_precautions := info.safety,
    confidence := ⟨1, 1⟩ }

/-! ### `heuristic_classify` (src/main.py:596-659)

The keyword table in source order (Python dicts iterate in insertion
order, so the nested-loop order below is part of the embedded contract).
Confidences are the exact decimal constants of the source. -/

def category_keywords : List (Int × List (String × PyRat)) :=
  [(0, [("food scrap", ⟨95, 100⟩), ("fruit peel", ⟨95, 100⟩), ("vegetable", ⟨90, 100⟩),
        ("leftover", ⟨85, 100⟩), ("coffee ground", ⟨90, 100⟩), ("tea bag", ⟨90, 100⟩),
        ("yard waste", ⟨85, 100⟩), ("grass clipping", ⟨90, 100⟩), ("leaf", ⟨85, 100⟩),
        ("wood chip", ⟨80, 100⟩), ("sawdust", ⟨80, 100⟩), ("manure", ⟨95, 100⟩)]),
   (1, [("plastic bottle", ⟨95, 100⟩), ("plastic bag", ⟨90, 100⟩), ("glass jar", ⟨95, 100⟩),
        ("metal can", ⟨95, 100⟩), ("aluminum foil", ⟨90, 100⟩), ("styrofoam", ⟨85, 100⟩),
        ("ceramic", ⟨80, 100⟩), ("rubber", ⟨85, 100⟩), ("pvc", ⟨90, 100⟩)]),
   (2, [("battery", ⟨95, 100⟩), ("paint", ⟨95, 100⟩), ("pesticide", ⟨95, 100⟩),
        ("cleaning chemical", ⟨90, 100⟩), ("motor oil", ⟨95, 100⟩), ("fluorescent bulb", ⟨90, 100⟩),
        ("asbestos", ⟨99, 100⟩), ("bleach", ⟨90, 100⟩), ("ammonia", ⟨90, 100⟩)]),
   (3, [("phone", ⟨95, 100⟩), ("computer", ⟨95, 100⟩), ("tv", ⟨95, 100⟩),
        ("printer", ⟨90, 100⟩), ("monitor", ⟨95, 100⟩), ("cable", ⟨85, 100⟩),
        ("charger", ⟨90, 100⟩), ("keyboard", ⟨85, 100⟩), ("mouse", ⟨85, 100⟩)]),
   (4, [("concrete", ⟨95, 100⟩), ("brick", ⟨95, 100⟩), ("drywall", ⟨90, 100⟩),
        ("tile", ⟨90, 100⟩), ("asphalt", ⟨90, 100⟩), ("lumber", ⟨85, 100⟩),
        ("insulation", ⟨85, 100⟩), ("roofing", ⟨85, 100⟩)]),
   (5, [("slag", ⟨95, 100⟩), ("industrial waste", ⟨90, 100⟩), ("chemical waste", ⟨95, 100⟩),
        ("manufacturing byproduct", ⟨90, 100⟩), ("factory waste", ⟨85, 100⟩)]),
   (6, [("syringe", ⟨99, 100⟩), ("needle", ⟨99, 100⟩), ("bandage", ⟨95, 100⟩),
        ("gauze", ⟨95, 100⟩), ("blood product", ⟨99, 100⟩), ("glove", ⟨85, 100⟩),
        ("mask", ⟨80, 100⟩), ("vial", ⟨90, 100⟩), ("iv bag", ⟨95, 100⟩)]),
   (7, [("radioactive", ⟨99, 100⟩), ("uranium", ⟨99, 100⟩), ("plutonium", ⟨99, 100⟩),
        ("radiation source", ⟨99, 100⟩), ("nuclear waste", ⟨99, 100⟩)]),
   (8, [("textile", ⟨90, 100⟩), ("clothing", ⟨90, 100⟩), ("paper", ⟨85, 100⟩),
        ("cardboard", ⟨85, 100⟩), ("agricultural film", ⟨90, 100⟩),
        ("pesticide container", ⟨95, 100⟩)])]

/-- The keyword table flattened to `(category_id, keyword, confidence)`
triples in exact iteration order of the nested source loops. -/
def keyword_table : List (Int × String × PyRat) :=
  (category_keywords.map (fun p => p.2.map (fun kc => (p.1, kc.1, kc.2)))).flatten

/-- One classification outcome: the 5-tuple
`(category_id, category_name, description, confidence, details)` the
source functions return.  On the model-parse path `category_name` and
`description` are whatever JSON values `parsed.get` produced, so those
components carry `Json`; `details` is either the raw parsed object or a
`get_category_details` record. -/
structure ClassificationResult where
  category_id : Int
  category_name : Json
  description : Json
  confidence : PyRat
  details : Json ⊕ CategoryDetails

/-- The `lower()` normalization (ASCII case mapping; every keyword in the
table is ASCII). -/
def lowerChars (cs : List Char) : List Char := cs.map Char.toLower

def isPrefixChars : List Char → List Char → Bool
  | [], _ => true
  | _ :: _, [] => false
  | a :: as, b :: bs => a == b && isPrefixChars as bs

/-- Python substring containment `needle in hay`. -/
def strContains : List Char → List Char → Bool
  | [], needle => needle.isEmpty
  | c :: rest, needle => isPrefixChars needle (c :: rest) || strContains rest needle

/-- The nested maximum-tracking loop: `confidence > best_confidence` is a
strict comparison, so the first table-order match is kept on ties. -/
def best_match (text_lower : List Char) : Int × PyRat :=
  category_keywords.foldl
    (fun best p =>
      p.2.foldl
        (fun best kc =>
          if strContains text_lower kc.1.data then
            if PyRat.blt best.2 kc.2 then (p.1, kc.2) else best
          else best)
        best)
    ((9 : Int), (⟨0, 1⟩ : PyRat))

/-- The returned 5-tuple of `heuristic_classify` as a function of
`(best_category, best_confidence)`.  The source indexes
`CATEGORIES[best_category]` and `DISPOSAL_INFO[best_category]` directly;
the key is always present (the fold only ever holds table keys or 9), so
the `getD` default is never consulted. -/
def heuristic_result (best : Int × PyRat) : ClassificationResult :=
  { category_id := best.1,
    category_name := Json.str ((CATEGORIES best.1).getD CATEGORY_9).name,
    description := Json.str ((DISPOSAL_INFO best.1).getD DISPOSAL_9).description,
    confidence := best.2,
    details := Sum.inr (get_category_details best.1) }

/-- `heuristic_classify`: always succeeds. -/
def heuristic_classify (text : String) : ClassificationResult :=
  heuristic_result (best_match (lowerChars text.data))

/-- The table entries whose keyword is contained in the lowercased input,
in table order. -/
def matched_keywords (text : String) : List (Int × String × PyRat) :=
  keyword_table.filter (fun e => strContains (lowerChars text.data) e.2.1.data)

/-! ### Session state and caches (src/main.py:843-849, 793-798)

`st.session_state.text_cache` / `image_cache` are Python dicts keyed by
an md5 hex digest.  They are modelled as association lists where insert
prepends and lookup takes the first match (observationally the same as
dict overwrite); the digest itself is I/O-free but external (`hashlib`),
so it is passed as an oracle function wherever it is used. -/

structure SessionState where
  text_cache : List (String × ClassificationResult)
  image_cache : List (String × ClassificationResult)

def emptyState : SessionState := ⟨[], []⟩

def cacheLookup (cache : List (String × ClassificationResult)) (k : String) :
    Option ClassificationResult :=
  (cache.find? (fun p => p.1 == k)).map (fun p => p.2)

/-! ### The model-reply parse-success path (src/main.py:856-868, 819-832)

Builds the returned 5-tuple from a truthy parsed object:
`int(parsed.get("category_id", 9))` and
`float(parsed.get("confidence", 0.5))` can raise (`Except.error`), the
other two fields are passed through untouched. -/

def parse_success_result (parsed : Json) : Except String ClassificationResult :=
  match pyInt (parsed.get "category_id" (Json.int 9)) with
  | .error e => .error e
  | .ok cid =>
    match pyFloat (parsed.get "confidence" (Json.float ⟨5, 10⟩)) with
    | .error e => .error e
    | .ok conf =>
      .ok { category_id := cid,
            category_name := parsed.get "category_name" (Json.str CATEGORY_9.name),
            description := parsed.get "description" (Json.str ""),
            confidence := conf,
            details := Sum.inl parsed }

/-! ### `classify_text` (src/main.py:838-872)

The Ollama gateway is external I/O: `reply` is the oracle value of
`query_ollama(model, prompt)` for this one call — `none` when the call
returned nothing usable (`result and "response" in result` false), or the
raw reply text.  `h` is the md5-hex-digest oracle for cache keys. -/

def classify_text (h : String → String) (reply : Option String)
    (st : SessionState) (text : String) :
    Except String (ClassificationResult × SessionState) :=
  let text_hash := h text
  match cacheLookup st.text_cache text_hash with
  | some cached => .ok (cached, st)
  | none =>
    match reply with
    | some response =>
      match extract_json_from_text response with
      | some parsed =>
        if parsed.isTruthy then
          match parse_success_result parsed with
          | .error e => .error e
          | .ok r => .ok (r, { st with text_cache := (text_hash, r) :: st.text_cache })
        else .ok (heuristic_classify text, st)
      | none => .ok (heuristic_classify text, st)
    | none => .ok (heuristic_classify text, st)

/-! ### `classify_image` (src/main.py:664-698, 784-836) -/

/-- `preprocess_image`: the body (PIL decode, RGB conversion, resize,
JPEG re-encode) is the external-library computation `pil`; the function
under test is the `try/except` wrapper, which swallows every error and
returns the ORIGINAL bytes unchanged. -/
def preprocess_image (pil : List Nat → Option (List Nat)) (image_bytes : List Nat) :
    List Nat :=
  match pil image_bytes with
  | some processed => processed
  | none => image_bytes

/-- Take characters up to the first newline (`.split(chr(10))[0]`). -/
def firstLine (cs : List Char) : List Char := cs.takeWhile (fun c => c != '\n')

/-- The caption fallback chain (src/main.py:805-811): a model caption is
stripped and truncated to its first line; otherwise the OCR text
truncated to 100 characters; otherwise the placeholder `"an object"`. -/
def image_caption (caption_reply : Option String) (ocr_text : String) : String :=
  match caption_reply with
  | some resp => String.mk (firstLine (pyStrip resp.data))
  | none => if ocr_text.isEmpty then "an object" else String.mk (ocr_text.data.take 100)

/-- `classify_image`: `pil` is the preprocessing body oracle, `ocr` the
`extract_text_from_image` oracle (total — the source returns `""` on any
OCR failure), `h` the md5 digest oracle, `caption_reply` and
`classify_reply` the two `query_ollama` outcomes in call order. -/
def classify_image (pil : List Nat → Option (List Nat)) (ocr : List Nat → String)
    (h : List Nat → String) (caption_reply : Option String)
    (classify_reply : Option String) (st : SessionState) (image_bytes : List Nat) :
    Except String (ClassificationResult × SessionState) :=
  let processed_img := preprocess_image pil image_bytes
  let img_hash := h processed_img
  match cacheLookup st.image_cache img_hash with
  | some cached => .ok (cached, st)
  | none =>
    let ocr_text := ocr processed_img
    let caption := image_caption caption_reply ocr_text
    match classify_reply with
    | some response =>
      match extract_json_from_text response with
      | some parsed =>
        if parsed.isTruthy then
          match parse_success_result parsed with
          | .error e => .error e
          | .ok r => .ok (r, { st with image_cache := (img_hash, r) :: st.image_cache })
        else .ok (heuristic_classify caption, st)
      | none => .ok (heuristic_classify caption, st)
    | none => .ok (heuristic_classify caption, st)

/-! ### Temp-file lifecycle of `query_ollama`'s CLI fallback
(src/main.py:552-591)

The source creates a prompt temp file (`delete=False`), optionally an
image temp file, runs the subprocess, and removes in a `finally` block
every path variable that was ASSIGNED (`tmp_path`, and `img_path` when
set).  Crucially, `tmp_path = tmp_file.name` is executed only after the
outer `with` block body completes, although the file itself exists from
the moment `NamedTemporaryFile` returns.  The model tracks which files
come into existence and which path variables get assigned under each
possible exit of the block. -/

inductive TmpFile where
  | promptFile
  | imageFile
deriving DecidableEq

/-- Where (if anywhere) the CLI fallback block exits abnormally. -/
inductive CliFault where
  /-- everything succeeds; the subprocess exits 0 with this stdout -/
  | ok (stdout : String)
  /-- subprocess exits with a nonzero code -/
  | exitNonzero
  /-- `subprocess.run` (or reading the prompt file back) raises,
  including `TimeoutExpired` -/
  | runRaises
  /-- the outer `NamedTemporaryFile()` call itself raises -/
  | tmpCreateRaises
  /-- the inner image `NamedTemporaryFile()` call raises (image present) -/
  | imgCreateRaises
  /-- `img_file.write(image_bytes)` raises, before `img_path` is assigned -/
  | imgWriteRaises
  /-- `tmp_file.write("[IMAGE]...")` raises, after `img_path` is assigned -/
  | imageHeaderWriteRaises
  /-- `tmp_file.write(prompt)` raises, before `tmp_path` is assigned -/
  | promptWriteRaises
deriving DecidableEq

/-- The `finally` block (src/main.py:582-589): it iterates over
`[tmp_path, img_path] if img_path else [tmp_path]` and removes each path
that is not `None`; files whose path variable was never assigned
survive. -/
def finally_cleanup (created : List TmpFile) (tmp_assigned img_assigned : Bool) :
    List TmpFile :=
  created.filter (fun f =>
    match f with
    | .promptFile => !tmp_assigned
    | .imageFile => !img_assigned)

/-- The CLI fallback block of `query_ollama`: returns the temp files left
on disk after the `finally` cleanup, and the reply value (`some stdout`
on exit code 0, otherwise `None` flows onward).  Faults that involve the
image file are only reachable when `image_present` is true. -/
def query_ollama_cli (image_present : Bool) (fault : CliFault) :
    List TmpFile × Option String :=
  match fault with
  | .tmpCreateRaises =>
    -- raised before any file exists
    (finally_cleanup [] false false, none)
  | .imgCreateRaises =>
    -- outer prompt file exists; neither path variable assigned
    (finally_cleanup [.promptFile] false false, none)
  | .imgWriteRaises =>
    -- both files exist; neither path variable assigned
    (finally_cleanup [.promptFile, .imageFile] false false, none)
  | .imageHeaderWriteRaises =>
    -- both files exist; `img_path` assigned, `tmp_path` not yet
    (finally_cleanup [.promptFile, .imageFile] false true, none)
  | .promptWriteRaises =>
    -- all files created so far exist; `img_path` assigned iff an image
    -- was written; `tmp_path` still unassigned
    (finally_cleanup (if image_present then [.promptFile, .imageFile] else [.promptFile])
      false image_present, none)
  | .runRaises =>
    -- the with-block completed: both path variables assigned
    (finally_cleanup (if image_present then [.promptFile, .imageFile] else [.promptFile])
      true image_present, none)
  | .exitNonzero =>
    (finally_cleanup (if image_present then [.promptFile, .imageFile] else [.promptFile])
      true image_present, none)
  | .ok stdout =>
    (finally_cleanup (if image_present then [.promptFile, .imageFile] else [.promptFile])
      true image_present, some stdout)

/-! ### Basic facts about the embedded pieces -/

theorem PyRat.blt_iff {a b : PyRat} (ha : 0 < a.den) (hb : 0 < b.den) :
    PyRat.blt a b = true ↔ a.toRat < b.toRat := by
  unfold PyRat.blt PyRat.toRat
  rw [decide_eq_true_eq]
  rw [div_lt_div_iff₀ (by exact_mod_cast ha) (by exact_mod_cast hb)]
  constructor
  · intro h; exact_mod_cast h
  · intro h; exact_mod_cast h

theorem PyRat.blt_false_iff {a b : PyRat} (ha : 0 < a.den) (hb : 0 < b.den) :
    PyRat.blt a b = false ↔ b.toRat ≤ a.toRat := by
  rw [← not_lt, ← PyRat.blt_iff ha hb]
  cases h : PyRat.blt a b <;> simp [h]

theorem dropUntilBrace_eq_none {cs : List Char} (h : ∀ c ∈ cs, c ≠ lbraceC) :
    dropUntilBrace cs = none := by
  induction cs with
  | nil => rfl
  | cons c rest ih =>
    have hc : ¬(c == lbraceC) = true := by
      simpa using h c (by simp)
    simp only [dropUntilBrace, if_neg hc]
    exact ih (fun d hd => h d (by simp [hd]))

/-- A newly inserted cache entry is found first. -/
theorem cacheLookup_insert_self (cache : List (String × ClassificationResult))
    (k : String) (r : ClassificationResult) :
    cacheLookup ((k, r) :: cache) k = some r := by
  simp [cacheLookup, List.find?]

/-! ### The maximum-tracking fold of `heuristic_classify` -/

/-- The nested source loops visit exactly the flattened table in order. -/
theorem best_match_eq_flat (tl : List Char) :
    best_match tl = keyword_table.foldl
      (fun b e => if strContains tl e.2.1.data then
          (if PyRat.blt b.2 e.2.2 then (e.1, e.2.2) else b) else b)
      ((9 : Int), (⟨0, 1⟩ : PyRat)) := by
  have aux : ∀ (ll : List (Int × List (String × PyRat))) (b : Int × PyRat),
      ll.foldl
        (fun best p =>
          p.2.foldl
            (fun best kc =>
              if strContains tl kc.1.data then
                if PyRat.blt best.2 kc.2 then (p.1, kc.2) else best
              else best)
            best)
        b
      = ((ll.map (fun p => p.2.map (fun kc => (p.1, kc.1, kc.2)))).flatten).foldl
          (fun b e => if strContains tl e.2.1.data then
              (if PyRat.blt b.2 e.2.2 then (e.1, e.2.2) else b) else b) b := by
    intro ll
    induction ll with
    | nil => intro b; rfl
    | cons hd tl2 ih =>
      intro b
      simp only [List.map_cons, List.flatten_cons, List.foldl_append, List.foldl_cons,
        List.foldl_map]
      rw [ih]
  exact aux category_keywords _

/-- Characterization of the maximum-tracking fold: either no entry beats
the initial accumulator (the fold returns it unchanged), or the fold
returns the FIRST entry attaining the maximum matched confidence —
entries before it are strictly smaller, entries after it no larger, which
is exactly "ties keep the first table-order match". -/
theorem foldl_firstMax (p : Int × String × PyRat → Bool) :
    ∀ (l : List (Int × String × PyRat)) (b : Int × PyRat),
      0 < b.2.den → (∀ e ∈ l, 0 < e.2.2.den) →
      (l.foldl (fun b e => if p e then (if PyRat.blt b.2 e.2.2 then (e.1, e.2.2) else b) else b) b
          = b
         ∧ ∀ e ∈ l, p e = true → e.2.2.toRat ≤ b.2.toRat)
      ∨ (∃ pre e post, l = pre ++ e :: post ∧ p e = true
           ∧ b.2.toRat < e.2.2.toRat
           ∧ l.foldl (fun b e => if p e then (if PyRat.blt b.2 e.2.2 then (e.1, e.2.2) else b) else b) b
             = (e.1, e.2.2)
           ∧ (∀ x ∈ pre, p x = true → x.2.2.toRat < e.2.2.toRat)
           ∧ (∀ x ∈ post, p x = true → x.2.2.toRat ≤ e.2.2.toRat)) := by
  intro l
  induction l with
  | nil => intro b _ _; exact Or.inl ⟨rfl, by simp⟩
  | cons e rest ih =>
    intro b hb hl
    have he : 0 < e.2.2.den := hl e (List.mem_cons_self e rest)
    have hrest : ∀ x ∈ rest, 0 < x.2.2.den := fun x hx => hl x (List.mem_cons_of_mem e hx)
    rw [List.foldl_cons]
    by_cases hp : p e = true
    · by_cases hlt : PyRat.blt b.2 e.2.2 = true
      · have hstep :
            (if p e then (if PyRat.blt b.2 e.2.2 then (e.1, e.2.2) else b) else b) = (e.1, e.2.2) := by
          rw [if_pos hp, if_pos hlt]
        rw [hstep]
        have hbe : b.2.toRat < e.2.2.toRat := (PyRat.blt_iff hb he).mp hlt
        rcases ih (e.1, e.2.2) he hrest with ⟨hfold, hall⟩ |
          ⟨pre, e2, post, hsplit, hp2, hlt2, hfold, hpre, hpost⟩
        · exact Or.inr ⟨[], e, rest, by simp, hp, hbe, hfold, by simp,
            fun x hx hpx => hall x hx hpx⟩
        · refine Or.inr ⟨e :: pre, e2, post, by rw [hsplit]; rfl, hp2,
            lt_trans hbe hlt2, hfold, ?_, hpost⟩
          intro x hx hpx
          rcases List.mem_cons.mp hx with hxe | hxpre
          · subst hxe; exact hlt2
          · exact hpre x hxpre hpx
      · have hltf : PyRat.blt b.2 e.2.2 = false := by simpa using hlt
        have hstep :
            (if p e then (if PyRat.blt b.2 e.2.2 then (e.1, e.2.2) else b) else b) = b := by
          rw [if_pos hp, if_neg hlt]
        rw [hstep]
        have hle : e.2.2.toRat ≤ b.2.toRat := (PyRat.blt_false_iff hb he).mp hltf
        rcases ih b hb hrest with ⟨hfold, hall⟩ |
          ⟨pre, e2, post, hsplit, hp2, hlt2, hfold, hpre, hpost⟩
        · refine Or.inl ⟨hfold, ?_⟩
          intro x hx hpx
          rcases List.mem_cons.mp hx with hxe | hxr
          · subst hxe; exact hle
          · exact hall x hxr hpx
        · refine Or.inr ⟨e :: pre, e2, post, by rw [hsplit]; rfl, hp2, hlt2, hfold, ?_, hpost⟩
          intro x hx hpx
          rcases List.mem_cons.mp hx with hxe | hxpre
          · subst hxe; exact lt_of_le_of_lt hle hlt2
          · exact hpre x hxpre hpx
    · have hstep :
          (if p e then (if PyRat.blt b.2 e.2.2 then (e.1, e.2.2) else b) else b) = b := by
        rw [if_neg hp]
      rw [hstep]
      rcases ih b hb hrest with ⟨hfold, hall⟩ |
        ⟨pre, e2, post, hsplit, hp2, hlt2, hfold, hpre, hpost⟩
      · refine Or.inl ⟨hfold, ?_⟩
        intro x hx hpx
        rcases List.mem_cons.mp hx with hxe | hxr
        · subst hxe; exact absurd hpx hp
        · exact hall x hxr hpx
      · refine Or.inr ⟨e :: pre, e2, post, by rw [hsplit]; rfl, hp2, hlt2, hfold, ?_, hpost⟩
        intro x hx hpx
        rcases List.mem_cons.mp hx with hxe | hxpre
        · subst hxe; exact absurd hpx hp
        · exact hpre x hxpre hpx

theorem keyword_table_den_pos : ∀ e ∈ keyword_table, 0 < e.2.2.den := by decide

theorem keyword_table_num_pos : ∀ e ∈ keyword_table, 0 < e.2.2.num := by decide

theorem keyword_table_cat_range : ∀ e ∈ keyword_table, 0 ≤ e.1 ∧ e.1 ≤ 9 := by decide

theorem pyRat_zero_toRat : ((⟨0, 1⟩ : PyRat)).toRat = 0 := by
  norm_num [PyRat.toRat]

/-- `best_match` characterized over the flattened table. -/
theorem best_match_spec (tl : List Char) :
    (best_match tl = ((9 : Int), (⟨0, 1⟩ : PyRat))
       ∧ ∀ e ∈ keyword_table, strContains tl e.2.1.data = true → e.2.2.toRat ≤ 0)
    ∨ (∃ pre e post, keyword_table = pre ++ e :: post
         ∧ strContains tl e.2.1.data = true
         ∧ 0 < e.2.2.toRat
         ∧ best_match tl = (e.1, e.2.2)
         ∧ (∀ x ∈ pre, strContains tl x.2.1.data = true → x.2.2.toRat < e.2.2.toRat)
         ∧ (∀ x ∈ post, strContains tl x.2.1.data = true → x.2.2.toRat ≤ e.2.2.toRat)) := by
  have hmain := foldl_firstMax (fun e => strContains tl e.2.1.data) keyword_table
    ((9 : Int), (⟨0, 1⟩ : PyRat)) (by norm_num) keyword_table_den_pos
  rw [best_match_eq_flat tl]
  rcases hmain with ⟨hfold, hall⟩ | ⟨pre, e, post, hsplit, hp, hlt, hfold, hpre, hpost⟩
  · exact Or.inl ⟨hfold, fun e he hc => by
      simpa [pyRat_zero_toRat] using hall e he hc⟩
  · exact Or.inr ⟨pre, e, post, hsplit, hp, by
      simpa [pyRat_zero_toRat] using hlt, hfold, hpre, hpost⟩

theorem best_match_cat_range (tl : List Char) :
    0 ≤ (best_match tl).1 ∧ (best_match tl).1 ≤ 9 := by
  rcases best_match_spec tl with ⟨hb, _⟩ | ⟨pre, e, post, hsplit, _, _, hb, _, _⟩
  · rw [hb]; exact ⟨by norm_num, by norm_num⟩
  · rw [hb]
    have he : e ∈ keyword_table := by
      rw [hsplit]; exact List.mem_append_right _ (List.mem_cons_self _ _)
    exact keyword_table_cat_range e he

/-- Every heuristic classification lands in the closed id range 0-9. -/
theorem heuristic_classify_range (text : String) :
    0 ≤ (heuristic_classify text).category_id
      ∧ (heuristic_classify text).category_id ≤ 9 := by
  simpa [heuristic_classify, heuristic_result] using
    best_match_cat_range (lowerChars text.data)

/-- A matched table entry has strictly positive confidence. -/
theorem matched_conf_pos {x : Int × String × PyRat} (hx : x ∈ keyword_table) :
    0 < x.2.2.toRat := by
  have hnum := keyword_table_num_pos x hx
  have hden := keyword_table_den_pos x hx
  unfold PyRat.toRat
  positivity

/-! ### Claim C4

The heuristic contract: lowercase the input, return the first table-order
entry attaining the maximum contained-keyword confidence, or the unknown
category (id 9, confidence 0.0) when nothing matches; and concretely
`classify("used syringe")` gives category 6 with confidence 0.99. -/

/-- C4.  (i) With no contained keyword, `heuristic_classify` returns the
unknown result: category id 9 and confidence 0.  (ii) Otherwise the
result is the first matched table entry of maximal confidence: everything
matched before it is strictly smaller, everything after no larger (ties
keep the first table-order match).  (iii) `"used syringe"` classifies as
category 6 with confidence 99/100 = 0.99. -/
theorem C4_heuristic_contract :
    (∀ text : String, matched_keywords text = [] →
        heuristic_classify text = heuristic_result ((9 : Int), (⟨0, 1⟩ : PyRat))
          ∧ (heuristic_classify text).category_id = 9
          ∧ (heuristic_classify text).confidence.toRat = 0)
    ∧ (∀ text : String, matched_keywords text ≠ [] →
        ∃ pre e post, matched_keywords text = pre ++ e :: post
          ∧ (heuristic_classify text).category_id = e.1
          ∧ (heuristic_classify text).confidence = e.2.2
          ∧ (∀ x ∈ pre, x.2.2.toRat < e.2.2.toRat)
          ∧ (∀ x ∈ post, x.2.2.toRat ≤ e.2.2.toRat))
    ∧ (heuristic_classify "used syringe").category_id = 6
    ∧ (heuristic_classify "used syringe").confidence = ⟨99, 100⟩
    ∧ ((⟨99, 100⟩ : PyRat)).toRat = 99 / 100 := by
  refine ⟨?_, ?_, rfl, rfl, by norm_num [PyRat.toRat]⟩
  · intro text hm
    have hnone : ∀ e ∈ keyword_table, ¬ strContains (lowerChars text.data) e.2.1.data = true :=
      List.filter_eq_nil_iff.mp hm
    rcases best_match_spec (lowerChars text.data) with ⟨hb, _⟩ |
      ⟨pre, e, post, hsplit, hp, _, _, _, _⟩
    · refine ⟨?_, ?_, ?_⟩
      · unfold heuristic_classify
        rw [hb]
      · unfold heuristic_classify
        rw [hb]
        rfl
      · unfold heuristic_classify
        rw [hb]
        exact pyRat_zero_toRat
    · exfalso
      have he : e ∈ keyword_table := by
        rw [hsplit]; exact List.mem_append_right _ (List.mem_cons_self _ _)
      exact hnone e he hp
  · intro text hm
    rcases best_match_spec (lowerChars text.data) with ⟨hb, hall⟩ |
      ⟨pre, e, post, hsplit, hp, _, hb, hpre, hpost⟩
    · exfalso
      rcases List.exists_mem_of_ne_nil _ hm with ⟨x, hx⟩
      have hx2 := List.mem_filter.mp hx
      have hpos := matched_conf_pos hx2.1
      have hle := hall x hx2.1 hx2.2
      linarith
    · refine ⟨pre.filter (fun e => strContains (lowerChars text.data) e.2.1.data), e,
        post.filter (fun e => strContains (lowerChars text.data) e.2.1.data), ?_, ?_, ?_, ?_, ?_⟩
      · unfold matched_keywords
        rw [hsplit, List.filter_append]
        simp [List.filter_cons, hp]
      · unfold heuristic_classify
        rw [hb]
        rfl
      · unfold heuristic_classify
        rw [hb]
        rfl
      · intro x hx
        have hx2 := List.mem_filter.mp hx
        exact hpre x hx2.1 hx2.2
      · intro x hx
        have hx2 := List.mem_filter.mp hx
        exact hpost x hx2.1 hx2.2

/-- C4, witness: the matched-entry characterization applied to the
concrete input `"used syringe"`. -/
theorem C4_witness :
    matched_keywords "used syringe" ≠ []
      ∧ ∃ pre e post, matched_keywords "used syringe" = pre ++ e :: post
          ∧ (heuristic_classify "used syringe").category_id = e.1
          ∧ (heuristic_classify "used syringe").confidence = e.2.2
          ∧ (∀ x ∈ pre, x.2.2.toRat < e.2.2.toRat)
          ∧ (∀ x ∈ post, x.2.2.toRat ≤ e.2.2.toRat) :=
  ⟨by decide, C4_heuristic_contract.2.1 "used syringe" (by decide)⟩

/-! ### Claim C3

The spec's single-candidate policy: "on failure, return absent (no retry
with a different span)".  The source's scanning loop instead `continue`s
after a failed parse, so later depth-zero points produce longer candidate
spans (with the same start) that are also tried. -/

/-- C3, counterexample.  On the raw text `\x7b"a": "\x7d\x7b"\x7d` the first
balanced brace-delimited block (first return of naive depth to zero) is
`\x7b"a": "\x7d`, which fails to parse; the claim then requires absent,
but `extract_json_from_text` goes on to parse the longer span and returns
a record, not absent. -/
theorem C3_counterexample :
    brace_candidates "\x7b\"a\": \"\x7d\x7b\"\x7d"
        = ["\x7b\"a\": \"\x7d", "\x7b\"a\": \"\x7d\x7b\"\x7d"]
      ∧ json_loads "\x7b\"a\": \"\x7d" = none
      ∧ extract_json_from_text "\x7b\"a\": \"\x7d\x7b\"\x7d"
        = some (Json.obj [("a", Json.str "\x7d\x7b")]) :=
  ⟨rfl, rfl, rfl⟩

/-- C3, amended.  After a failed parse the function does not return
absent: it keeps scanning from the same start position and submits each
successively longer span ending where the naive brace depth returns to
zero, returning the first successful parse, and absent only when every
candidate fails. -/
theorem C3_amended_candidate_scan (text : String) :
    extract_json_from_text text = (brace_candidates text).findSome? json_loads := by
  unfold extract_json_from_text extract_raw brace_candidates
  by_cases he : text.isEmpty
  · simp [he]
  · simp only [he, if_false]
    cases hd : dropUntilBrace text.data with
    | none => rfl
    | some suffix => exact extractLoop_eq_candidates suffix [] 0

/-! ### Claim C5

The two concrete parser examples of the spec, and absence when the text
has no opening brace. -/

/-- C5.  `extract_json_from_text` on `Sure! \x7b"category_id": 3,
"confidence": 0.8\x7d` yields the record with `category_id = 3` and
`confidence = 0.8` (the fraction `8/10`); on `\x7b"a": \x7b"b": 1\x7d\x7d
trailing` the extracted block is exactly `\x7b"a": \x7b"b": 1\x7d\x7d`,
ignoring trailing content; and on any input with no opening brace it
returns absent. -/
theorem C5_parser_examples :
    extract_json_from_text "Sure! \x7b\"category_id\": 3, \"confidence\": 0.8\x7d"
        = some (Json.obj [("category_id", Json.int 3), ("confidence", Json.float ⟨8, 10⟩)])
      ∧ (⟨8, 10⟩ : PyRat).toRat = 4 / 5
      ∧ extract_block "\x7b\"a\": \x7b\"b\": 1\x7d\x7d trailing"
        = some "\x7b\"a\": \x7b\"b\": 1\x7d\x7d"
      ∧ ∀ text : String, (∀ c ∈ text.data, c ≠ lbraceC) →
          extract_json_from_text text = none := by
  refine ⟨rfl, by norm_num [PyRat.toRat], rfl, ?_⟩
  intro text h
  unfold extract_json_from_text extract_raw
  by_cases he : text.isEmpty
  · simp [he]
  · simp only [he, if_false]
    rw [dropUntilBrace_eq_none h]
    rfl

/-- C5, witness at a concrete brace-free input. -/
theorem C5_witness :
    (∀ c ∈ "hello world".data, c ≠ lbraceC)
      ∧ extract_json_from_text "hello world" = none := by
  have h : ∀ c ∈ "hello world".data, c ≠ lbraceC := by decide
  exact ⟨h, C5_parser_examples.2.2.2 "hello world" h⟩

/-! ### Claim C9

The spec: every temporary artifact of the CLI fallback is deleted on all
exit paths.  The code assigns `tmp_path` only after the `with` block body
completes, so any exception inside the block (after the outer temp file
already exists) leaves `tmp_path = None` and the `finally` loop never
removes the prompt file: the file leaks.  The normal paths (success,
nonzero exit, timeout) do clean up both files. -/

/-- C9.  The prompt temp file survives `query_ollama`'s cleanup whenever
the `with` block body raises after the file was created — e.g. when
`tmp_file.write(prompt)` raises — with or without an image; the image
file additionally survives when its own creation/write raises.  On the
success, nonzero-exit and timeout paths every created file is removed. -/
theorem C9_cleanup_bug :
    query_ollama_cli true CliFault.promptWriteRaises = ([TmpFile.promptFile], none)
      ∧ query_ollama_cli false CliFault.promptWriteRaises = ([TmpFile.promptFile], none)
      ∧ query_ollama_cli true CliFault.imgCreateRaises = ([TmpFile.promptFile], none)
      ∧ query_ollama_cli true CliFault.imgWriteRaises
        = ([TmpFile.promptFile, TmpFile.imageFile], none)
      ∧ query_ollama_cli true CliFault.imageHeaderWriteRaises = ([TmpFile.promptFile], none)
      ∧ query_ollama_cli true (CliFault.ok "reply") = ([], some "reply")
      ∧ query_ollama_cli false (CliFault.ok "reply") = ([], some "reply")
      ∧ query_ollama_cli true CliFault.runRaises = ([], none)
      ∧ query_ollama_cli true CliFault.exitNonzero = ([], none)
      ∧ query_ollama_cli true CliFault.tmpCreateRaises = ([], none) := by
  refine ⟨rfl, rfl, rfl, rfl, rfl, rfl, rfl, rfl, rfl, rfl⟩

/-! ### Path lemmas for the orchestrators -/

theorem classify_text_hit {h : String → String} {reply : Option String}
    {st : SessionState} {text : String} {c : ClassificationResult}
    (hc : cacheLookup st.text_cache (h text) = some c) :
    classify_text h reply st text = .ok (c, st) := by
  simp only [classify_text, hc]

theorem classify_text_miss_none {h : String → String} {st : SessionState} {text : String}
    (hc : cacheLookup st.text_cache (h text) = none) :
    classify_text h none st text = .ok (heuristic_classify text, st) := by
  simp only [classify_text, hc]

theorem classify_text_miss_unparsed {h : String → String} {st : SessionState}
    {text resp : String} (hc : cacheLookup st.text_cache (h text) = none)
    (he : extract_json_from_text resp = none) :
    classify_text h (some resp) st text = .ok (heuristic_classify text, st) := by
  simp only [classify_text, hc, he]

theorem classify_text_miss_falsy {h : String → String} {st : SessionState}
    {text resp : String} {parsed : Json} (hc : cacheLookup st.text_cache (h text) = none)
    (he : extract_json_from_text resp = some parsed) (ht : parsed.isTruthy = false) :
    classify_text h (some resp) st text = .ok (heuristic_classify text, st) := by
  simp only [classify_text, hc, he, ht, Bool.false_eq_true, if_false]

theorem classify_text_miss_parsed_ok {h : String → String} {st : SessionState}
    {text resp : String} {parsed : Json} {r : ClassificationResult}
    (hc : cacheLookup st.text_cache (h text) = none)
    (he : extract_json_from_text resp = some parsed) (ht : parsed.isTruthy = true)
    (hp : parse_success_result parsed = .ok r) :
    classify_text h (some resp) st text
      = .ok (r, { st with text_cache := (h text, r) :: st.text_cache }) := by
  simp only [classify_text, hc, he, ht, if_true, hp]

theorem classify_text_miss_parsed_err {h : String → String} {st : SessionState}
    {text resp : String} {parsed : Json} {e : String}
    (hc : cacheLookup st.text_cache (h text) = none)
    (he : extract_json_from_text resp = some parsed) (ht : parsed.isTruthy = true)
    (hp : parse_success_result parsed = .error e) :
    classify_text h (some resp) st text = .error e := by
  simp only [classify_text, hc, he, ht, if_true, hp]

/-- Every successful `classify_text` call is a cache hit, a heuristic
fallback (state unchanged), or a model-parse success (one cache write). -/
theorem classify_text_ok_cases {h : String → String} {reply : Option String}
    {st : SessionState} {text : String} {r : ClassificationResult} {st2 : SessionState}
    (hok : classify_text h reply st text = .ok (r, st2)) :
    (cacheLookup st.text_cache (h text) = some r ∧ st2 = st)
    ∨ (cacheLookup st.text_cache (h text) = none ∧ r = heuristic_classify text ∧ st2 = st)
    ∨ (cacheLookup st.text_cache (h text) = none
        ∧ st2 = { st with text_cache := (h text, r) :: st.text_cache }
        ∧ ∃ resp parsed, reply = some resp ∧ extract_json_from_text resp = some parsed
            ∧ parsed.isTruthy = true ∧ parse_success_result parsed = .ok r) := by
  cases hc : cacheLookup st.text_cache (h text) with
  | some c =>
    rw [classify_text_hit hc] at hok
    simp only [Except.ok.injEq, Prod.mk.injEq] at hok
    exact Or.inl ⟨by rw [hok.1], hok.2.symm⟩
  | none =>
    cases reply with
    | none =>
      rw [classify_text_miss_none hc] at hok
      simp only [Except.ok.injEq, Prod.mk.injEq] at hok
      exact Or.inr (Or.inl ⟨rfl, hok.1.symm, hok.2.symm⟩)
    | some resp =>
      cases he : extract_json_from_text resp with
      | none =>
        rw [classify_text_miss_unparsed hc he] at hok
        simp only [Except.ok.injEq, Prod.mk.injEq] at hok
        exact Or.inr (Or.inl ⟨rfl, hok.1.symm, hok.2.symm⟩)
      | some parsed =>
        cases ht : parsed.isTruthy with
        | false =>
          rw [classify_text_miss_falsy hc he ht] at hok
          simp only [Except.ok.injEq, Prod.mk.injEq] at hok
          exact Or.inr (Or.inl ⟨rfl, hok.1.symm, hok.2.symm⟩)
        | true =>
          cases hp : parse_success_result parsed with
          | error e =>
            rw [classify_text_miss_parsed_err hc he ht hp] at hok
            simp at hok
          | ok r2 =>
            rw [classify_text_miss_parsed_ok hc he ht hp] at hok
            simp only [Except.ok.injEq, Prod.mk.injEq] at hok
            refine Or.inr (Or.inr ⟨rfl, by rw [← hok.1, hok.2.symm], resp, parsed, rfl, he, ht, ?_⟩)
            rw [hp, hok.1]

theorem classify_image_hit {pil : List Nat → Option (List Nat)} {ocr : List Nat → String}
    {h : List Nat → String} {cap rep : Option String} {st : SessionState}
    {bytes : List Nat} {c : ClassificationResult}
    (hc : cacheLookup st.image_cache (h (preprocess_image pil bytes)) = some c) :
    classify_image pil ocr h cap rep st bytes = .ok (c, st) := by
  simp only [classify_image, hc]

theorem classify_image_miss_none {pil : List Nat → Option (List Nat)}
    {ocr : List Nat → String} {h : List Nat → String} {cap : Option String}
    {st : SessionState} {bytes : List Nat}
    (hc : cacheLookup st.image_cache (h (preprocess_image pil bytes)) = none) :
    classify_image pil ocr h cap none st bytes
      = .ok (heuristic_classify (image_caption cap (ocr (preprocess_image pil bytes))), st) := by
  simp only [classify_image, hc]

theorem classify_image_miss_unparsed {pil : List Nat → Option (List Nat)}
    {ocr : List Nat → String} {h : List Nat → String} {cap : Option String}
    {st : SessionState} {bytes : List Nat} {resp : String}
    (hc : cacheLookup st.image_cache (h (preprocess_image pil bytes)) = none)
    (he : extract_json_from_text resp = none) :
    classify_image pil ocr h cap (some resp) st bytes
      = .ok (heuristic_classify (image_caption cap (ocr (preprocess_image pil bytes))), st) := by
  simp only [classify_image, hc, he]

theorem classify_image_miss_falsy {pil : List Nat → Option (List Nat)}
    {ocr : List Nat → String} {h : List Nat → String} {cap : Option String}
    {st : SessionState} {bytes : List Nat} {resp : String} {parsed : Json}
    (hc : cacheLookup st.image_cache (h (preprocess_image pil bytes)) = none)
    (he : extract_json_from_text resp = some parsed) (ht : parsed.isTruthy = false) :
    classify_image pil ocr h cap (some resp) st bytes
      = .ok (heuristic_classify (image_caption cap (ocr (preprocess_image pil bytes))), st) := by
  simp only [classify_image, hc, he, ht, Bool.false_eq_true, if_false]

theorem classify_image_miss_parsed_ok {pil : List Nat → Option (List Nat)}
    {ocr : List Nat → String} {h : List Nat → String} {cap : Option String}
    {st : SessionState} {bytes : List Nat} {resp : String} {parsed : Json}
    {r : ClassificationResult}
    (hc : cacheLookup st.image_cache (h (preprocess_image pil bytes)) = none)
    (he : extract_json_from_text resp = some parsed) (ht : parsed.isTruthy = true)
    (hp : parse_success_result parsed = .ok r) :
    classify_image pil ocr h cap (some resp) st bytes
      = .ok (r, { st with
          image_cache := (h (preprocess_image pil bytes), r) :: st.image_cache }) := by
  simp only [classify_image, hc, he, ht, if_true, hp]

theorem classify_image_miss_parsed_err {pil : List Nat → Option (List Nat)}
    {ocr : List Nat → String} {h : List Nat → String} {cap : Option String}
    {st : SessionState} {bytes : List Nat} {resp : String} {parsed : Json} {e : String}
    (hc : cacheLookup st.image_cache (h (preprocess_image pil bytes)) = none)
    (he : extract_json_from_text resp = some parsed) (ht : parsed.isTruthy = true)
    (hp : parse_success_result parsed = .error e) :
    classify_image pil ocr h cap (some resp) st bytes = .error e := by
  simp only [classify_image, hc, he, ht, if_true, hp]

/-- The `classify_image` analogue of `classify_text_ok_cases`. -/
theorem classify_image_ok_cases {pil : List Nat → Option (List Nat)}
    {ocr : List Nat → String} {h : List Nat → String} {cap rep : Option String}
    {st : SessionState} {bytes : List Nat} {r : ClassificationResult} {st2 : SessionState}
    (hok : classify_image pil ocr h cap rep st bytes = .ok (r, st2)) :
    (cacheLookup st.image_cache (h (preprocess_image pil bytes)) = some r ∧ st2 = st)
    ∨ (cacheLookup st.image_cache (h (preprocess_image pil bytes)) = none
        ∧ r = heuristic_classify (image_caption cap (ocr (preprocess_image pil bytes)))
        ∧ st2 = st)
    ∨ (cacheLookup st.image_cache (h (preprocess_image pil bytes)) = none
        ∧ st2 = { st with
            image_cache := (h (preprocess_image pil bytes), r) :: st.image_cache }
        ∧ ∃ resp parsed, rep = some resp ∧ extract_json_from_text resp = some parsed
            ∧ parsed.isTruthy = true ∧ parse_success_result parsed = .ok r) := by
  cases hc : cacheLookup st.image_cache (h (preprocess_image pil bytes)) with
  | some c =>
    rw [classify_image_hit hc] at hok
    simp only [Except.ok.injEq, Prod.mk.injEq] at hok
    exact Or.inl ⟨by rw [hok.1], hok.2.symm⟩
  | none =>
    cases rep with
    | none =>
      rw [classify_image_miss_none hc] at hok
      simp only [Except.ok.injEq, Prod.mk.injEq] at hok
      exact Or.inr (Or.inl ⟨rfl, hok.1.symm, hok.2.symm⟩)
    | some resp =>
      cases he : extract_json_from_text resp with
      | none =>
        rw [classify_image_miss_unparsed hc he] at hok
        simp only [Except.ok.injEq, Prod.mk.injEq] at hok
        exact Or.inr (Or.inl ⟨rfl, hok.1.symm, hok.2.symm⟩)
      | some parsed =>
        cases ht : parsed.isTruthy with
        | false =>
          rw [classify_image_miss_falsy hc he ht] at hok
          simp only [Except.ok.injEq, Prod.mk.injEq] at hok
          exact Or.inr (Or.inl ⟨rfl, hok.1.symm, hok.2.symm⟩)
        | true =>
          cases hp : parse_success_result parsed with
          | error e =>
            rw [classify_image_miss_parsed_err hc he ht hp] at hok
            simp at hok
          | ok r2 =>
            rw [classify_image_miss_parsed_ok hc he ht hp] at hok
            simp only [Except.ok.injEq, Prod.mk.injEq] at hok
            refine Or.inr (Or.inr ⟨rfl, by rw [← hok.1, hok.2.symm], resp, parsed, rfl, he, ht, ?_⟩)
            rw [hp, hok.1]

/-! ### Claim C1

The spec: "for all text inputs, classifyText returns a category id in
0-9".  True on the heuristic (absent/unparseable-reply) paths, but the
parse-success path stores `int(parsed.get("category_id", 9))` WITHOUT a
range check, so a parseable model reply carries any integer straight
through to the caller. -/

/-- C1, counterexample.  With a parseable model reply whose
`category_id` is 42, `classify_text` returns category id 42, outside the
closed range 0-9 the claim requires. -/
theorem C1_counterexample :
    (classify_text (fun _ => "k") (some "\x7b\"category_id\": 42\x7d")
        emptyState "an item").map (fun p => p.1.category_id) = .ok 42
      ∧ ¬((0 : Int) ≤ 42 ∧ (42 : Int) ≤ 9) :=
  ⟨rfl, by decide⟩

/-- C1, amended.  When the model reply is absent or contains no parseable
JSON block (and every cached entry being replayed is itself in range),
`classify_text` returns a category id in 0-9; the parse-success path
passes the reply's `category_id` through without a range check. -/
theorem C1_amended_in_range (h : String → String) (reply : Option String)
    (st : SessionState) (text : String)
    (hcache : ∀ k c, (k, c) ∈ st.text_cache → 0 ≤ c.category_id ∧ c.category_id ≤ 9)
    (hdeg : reply = none ∨ ∃ resp, reply = some resp ∧ extract_json_from_text resp = none) :
    ∃ r st2, classify_text h reply st text = .ok (r, st2)
      ∧ 0 ≤ r.category_id ∧ r.category_id ≤ 9 := by
  cases hc : cacheLookup st.text_cache (h text) with
  | some c =>
    rcases Option.map_eq_some'.mp hc with ⟨p, hfind, hp2⟩
    have hmem := List.mem_of_find?_eq_some hfind
    have hrange := hcache p.1 p.2 hmem
    rw [hp2] at hrange
    exact ⟨c, st, classify_text_hit hc, hrange⟩
  | none =>
    rcases hdeg with rfl | ⟨resp, rfl, he⟩
    · exact ⟨_, st, classify_text_miss_none hc, heuristic_classify_range text⟩
    · exact ⟨_, st, classify_text_miss_unparsed hc he, heuristic_classify_range text⟩

/-- C1, witness: the amended statement applied to an absent reply on an
empty cache. -/
theorem C1_witness :
    (∀ k c, (k, c) ∈ emptyState.text_cache → 0 ≤ c.category_id ∧ c.category_id ≤ 9)
      ∧ ∃ r st2, classify_text (fun _ => "") none emptyState "a mystery item" = .ok (r, st2)
          ∧ 0 ≤ r.category_id ∧ r.category_id ≤ 9 := by
  have hcache : ∀ k c, (k, c) ∈ emptyState.text_cache →
      0 ≤ c.category_id ∧ c.category_id ≤ 9 := by
    simp [emptyState]
  exact ⟨hcache,
    C1_amended_in_range (fun _ => "") none emptyState "a mystery item" hcache (Or.inl rfl)⟩

/-! ### Claim C2

Degraded conditions (no model reply, or a reply with no balanced /
malformed JSON block) never raise: both orchestrators fall through to the
always-succeeding heuristic classifier (on a cache miss), or replay the
cached result. -/

/-- C2.  Under a degraded model reply, `classify_text` and
`classify_image` always return `.ok`; on a cache miss the result is
exactly the heuristic classification (of the input text, resp. of the
degraded caption) and the state is unchanged. -/
theorem C2_degraded_never_errors :
    (∀ (h : String → String) (reply : Option String) (st : SessionState) (text : String),
        (reply = none ∨ ∃ resp, reply = some resp ∧ extract_json_from_text resp = none) →
        ∃ r st2, classify_text h reply st text = .ok (r, st2)
          ∧ (cacheLookup st.text_cache (h text) = none →
              r = heuristic_classify text ∧ st2 = st))
    ∧ (∀ (pil : List Nat → Option (List Nat)) (ocr : List Nat → String)
        (h : List Nat → String) (cap rep : Option String) (st : SessionState)
        (bytes : List Nat),
        (rep = none ∨ ∃ resp, rep = some resp ∧ extract_json_from_text resp = none) →
        ∃ r st2, classify_image pil ocr h cap rep st bytes = .ok (r, st2)
          ∧ (cacheLookup st.image_cache (h (preprocess_image pil bytes)) = none →
              r = heuristic_classify (image_caption cap (ocr (preprocess_image pil bytes)))
                ∧ st2 = st)) := by
  constructor
  · intro h reply st text hdeg
    cases hc : cacheLookup st.text_cache (h text) with
    | some c =>
      exact ⟨c, st, classify_text_hit hc, fun hn => Option.noConfusion hn⟩
    | none =>
      rcases hdeg with rfl | ⟨resp, rfl, he⟩
      · exact ⟨_, st, classify_text_miss_none hc, fun _ => ⟨rfl, rfl⟩⟩
      · exact ⟨_, st, classify_text_miss_unparsed hc he, fun _ => ⟨rfl, rfl⟩⟩
  · intro pil ocr h cap rep st bytes hdeg
    cases hc : cacheLookup st.image_cache (h (preprocess_image pil bytes)) with
    | some c =>
      exact ⟨c, st, classify_image_hit hc, fun hn => Option.noConfusion hn⟩
    | none =>
      rcases hdeg with rfl | ⟨resp, rfl, he⟩
      · exact ⟨_, st, classify_image_miss_none hc, fun _ => ⟨rfl, rfl⟩⟩
      · exact ⟨_, st, classify_image_miss_unparsed hc he, fun _ => ⟨rfl, rfl⟩⟩

/-- C2, witness: both orchestrators on an absent reply with empty
caches. -/
theorem C2_witness :
    (∃ r st2, classify_text (fun _ => "") none emptyState "plastic bottle" = .ok (r, st2)
        ∧ (cacheLookup emptyState.text_cache ((fun _ => "") "plastic bottle") = none →
            r = heuristic_classify "plastic bottle" ∧ st2 = emptyState))
      ∧ (∃ r st2, classify_image (fun _ => none) (fun _ => "") (fun _ => "")
            none none emptyState [] = .ok (r, st2)
          ∧ (cacheLookup emptyState.image_cache
                ((fun _ => "") (preprocess_image (fun _ => none) [])) = none →
              r = heuristic_classify (image_caption none
                    ((fun _ => "") (preprocess_image (fun _ => none) [])))
                ∧ st2 = emptyState)) :=
  ⟨C2_degraded_never_errors.1 (fun _ => "") none emptyState "plastic bottle" (Or.inl rfl),
   C2_degraded_never_errors.2 (fun _ => none) (fun _ => "") (fun _ => "")
     none none emptyState [] (Or.inl rfl)⟩

/-! ### Claim C6

The spec: unreadable/corrupt image bytes propagate an explicit error
naming the offending stage.  The source instead catches every exception
inside `preprocess_image` and returns the ORIGINAL bytes; the pipeline
then degrades (OCR empty, caption falls back to `"an object"`) and still
produces a classification. -/

/-- C6, counterexample.  With undecodable bytes (the PIL body fails), no
OCR, and no model, `classify_image` returns an ordinary `.ok`
classification (the heuristic result for the placeholder caption
`"an object"`, category 9) instead of propagating an error condition. -/
theorem C6_counterexample :
    classify_image (fun _ => none) (fun _ => "") (fun _ => "k") none none emptyState [0, 1, 2]
        = .ok (heuristic_classify "an object", emptyState)
      ∧ (heuristic_classify "an object").category_id = 9 :=
  ⟨rfl, rfl⟩

/-- C6, amended.  For unreadable or corrupt image bytes
`preprocess_image` swallows the error and returns the input bytes
unchanged, and `classify_image` (with the model replies also absent)
still returns an `.ok` classification — no error condition reaches the
caller. -/
theorem C6_amended_degrades (pil : List Nat → Option (List Nat))
    (ocr : List Nat → String) (h : List Nat → String) (st : SessionState)
    (bytes : List Nat) (hfail : pil bytes = none) :
    preprocess_image pil bytes = bytes
      ∧ ∃ r st2, classify_image pil ocr h none none st bytes = .ok (r, st2) := by
  have hpre : preprocess_image pil bytes = bytes := by
    unfold preprocess_image
    rw [hfail]
  refine ⟨hpre, ?_⟩
  cases hc : cacheLookup st.image_cache (h (preprocess_image pil bytes)) with
  | some c => exact ⟨c, st, classify_image_hit hc⟩
  | none => exact ⟨_, st, classify_image_miss_none hc⟩

/-- C6, witness: the amended statement at concrete corrupt bytes. -/
theorem C6_witness :
    ((fun _ : List Nat => (none : Option (List Nat))) [7] = none)
      ∧ preprocess_image (fun _ => none) [7] = [7]
      ∧ ∃ r st2, classify_image (fun _ => none) (fun _ => "") (fun _ => "k")
          none none emptyState [7] = .ok (r, st2) :=
  ⟨rfl,
   (C6_amended_degrades (fun _ => none) (fun _ => "") (fun _ => "k") emptyState [7] rfl).1,
   (C6_amended_degrades (fun _ => none) (fun _ => "") (fun _ => "k") emptyState [7] rfl).2⟩

/-! ### Claim C7

The spec: after a first completed call, a second identical call is
bit-for-bit equal AND served from the cache even with the backend
disabled.  The equality holds, but a heuristic (degraded) first call
writes nothing to the cache, so the second call is recomputed, not served
from the cache. -/

/-- C7, counterexample.  First call with the backend already disabled:
it completes via the heuristic path and the cache stays empty, so the
second identical call cannot be served from the cache (there is no entry
for the fingerprint) even though its result is equal. -/
theorem C7_counterexample :
    classify_text (fun t => t) none emptyState "plastic bottle"
        = .ok (heuristic_classify "plastic bottle", emptyState)
      ∧ emptyState.text_cache = []
      ∧ cacheLookup emptyState.text_cache ((fun t => t) "plastic bottle") = none :=
  ⟨rfl, rfl, rfl⟩

/-- C7, amended.  Once a first `classify_text` call has completed with
result `r` and state `st1`, a second call with the identical text and the
model backend disabled returns exactly `(r, st1)`; it is served from the
cache whenever the first call wrote to it (the model-parse path), while a
heuristic first result is recomputed, deterministically equal. -/
theorem C7_amended_idempotent (h : String → String) (reply : Option String)
    (st : SessionState) (text : String) (r : ClassificationResult) (st1 : SessionState)
    (hok : classify_text h reply st text = .ok (r, st1)) :
    classify_text h none st1 text = .ok (r, st1)
      ∧ (st1.text_cache ≠ st.text_cache → cacheLookup st1.text_cache (h text) = some r) := by
  rcases classify_text_ok_cases hok with ⟨hc, hst⟩ | ⟨hc, hr, hst⟩ |
    ⟨hc, hst, resp, parsed, hrep, hex, ht, hp⟩
  · subst hst
    exact ⟨classify_text_hit hc, fun hne => absurd rfl hne⟩
  · subst hst; subst hr
    exact ⟨classify_text_miss_none hc, fun hne => absurd rfl hne⟩
  · subst hst
    have hlk : cacheLookup
        ({ st with text_cache := (h text, r) :: st.text_cache }).text_cache (h text)
        = some r := cacheLookup_insert_self st.text_cache (h text) r
    exact ⟨classify_text_hit hlk, fun _ => hlk⟩

/-- C7, witness: the amended statement at a concrete degraded first
call. -/
theorem C7_witness :
    classify_text (fun t => t) none emptyState "battery"
        = .ok (heuristic_classify "battery", emptyState)
      ∧ (classify_text (fun t => t) none emptyState "battery"
            = .ok (heuristic_classify "battery", emptyState)
          ∧ (emptyState.text_cache ≠ emptyState.text_cache →
              cacheLookup emptyState.text_cache ((fun t => t) "battery")
                = some (heuristic_classify "battery"))) :=
  ⟨rfl, C7_amended_idempotent (fun t => t) none emptyState "battery"
    (heuristic_classify "battery") emptyState rfl⟩

/-! ### Claim C8 -/

theorem CATEGORIES_eq_none_of_out {id : Int} (hid : id < 0 ∨ 9 < id) :
    CATEGORIES id = none := by
  have hall : ∀ p ∈ CATEGORIES_TABLE,
      ¬((fun q : Int × Category => q.1 == id) p = true) := by
    intro p hp
    fin_cases hp <;> simp <;> omega
  unfold CATEGORIES
  rw [List.find?_eq_none.mpr hall]
  rfl

theorem DISPOSAL_INFO_eq_none_of_out {id : Int} (hid : id < 0 ∨ 9 < id) :
    DISPOSAL_INFO id = none := by
  have hall : ∀ p ∈ DISPOSAL_INFO_TABLE,
      ¬((fun q : Int × DisposalInfo => q.1 == id) p = true) := by
    intro p hp
    fin_cases hp <;> simp <;> omega
  unfold DISPOSAL_INFO
  rw [List.find?_eq_none.mpr hall]
  rfl

theorem CATEGORIES_ne_none_of_in {id : Int} (h0 : 0 ≤ id) (h9 : id ≤ 9) :
    CATEGORIES id ≠ none := by
  interval_cases id <;> decide

/-- C8.  An identifier that does not resolve in the catalog is exactly an
identifier outside 0-9, the guidance catalog misses it as well, and
`get_category_details` resolves it to the reserved unknown category's
label and full guidance record (keeping the original identifier in the
`category_id` field). -/
theorem C8_unknown_resolution (category_id : Int)
    (hnone : CATEGORIES category_id = none) :
    (category_id < 0 ∨ 9 < category_id)
      ∧ DISPOSAL_INFO category_id = none
      ∧ get_category_details category_id =
        { category_id := category_id,
          category_name := CATEGORY_9.name,
          description := DISPOSAL_9.description,
          reason := DISPOSAL_9.reason,
          disposal_steps := DISPOSAL_9.steps,
          environmental_impact := DISPOSAL_9.environmental_impact,
          common_mistakes := DISPOSAL_9.mistakes,
          additional_tips := DISPOSAL_9.tips,
          local_disposal_options := DISPOSAL_9.options,
          preparation_requirements := DISPOSAL_9.prep,
          safety_precautions := DISPOSAL_9.safety,
          confidence := ⟨1, 1⟩ } := by
  have hid : category_id < 0 ∨ 9 < category_id := by
    by_contra hcon
    push_neg at hcon
    exact CATEGORIES_ne_none_of_in hcon.1 hcon.2 hnone
  have hd : DISPOSAL_INFO category_id = none := DISPOSAL_INFO_eq_none_of_out hid
  refine ⟨hid, hd, ?_⟩
  unfold get_category_details
  rw [hnone, hd]
  rfl

/-- C8, witness at the out-of-catalog identifier 42. -/
theorem C8_witness :
    CATEGORIES 42 = none
      ∧ (((42 : Int) < 0 ∨ (9 : Int) < 42)
          ∧ DISPOSAL_INFO 42 = none
          ∧ get_category_details 42 =
            { category_id := 42,
              category_name := CATEGORY_9.name,
              description := DISPOSAL_9.description,
              reason := DISPOSAL_9.reason,
              disposal_steps := DISPOSAL_9.steps,
              environmental_impact := DISPOSAL_9.environmental_impact,
              common_mistakes := DISPOSAL_9.mistakes,
              additional_tips := DISPOSAL_9.tips,
              local_disposal_options := DISPOSAL_9.options,
              preparation_requirements := DISPOSAL_9.prep,
              safety_precautions := DISPOSAL_9.safety,
              confidence := ⟨1, 1⟩ }) :=
  ⟨rfl, C8_unknown_resolution 42 rfl⟩

/-! ### Claim C10

Cache writes happen only on the model-reply-parse success path; the
heuristic fallback never stores, so a later identical input re-runs the
gateway (and caches if that second reply parses). -/

/-- C10.  (i) A successful `classify_text` never touches the image cache
and changes the text cache only by prepending the parse-success result
under the input's fingerprint.  (ii) A degraded call leaves the state
unchanged entirely.  (iii) Consequently a later identical call still
misses and, given a parseable reply, takes and caches the model result.
(iv) The image orchestrator behaves symmetrically. -/
theorem C10_cache_frame :
    (∀ (h : String → String) (reply : Option String) (st : SessionState) (text : String)
        (r : ClassificationResult) (st2 : SessionState),
        classify_text h reply st text = .ok (r, st2) →
        st2.image_cache = st.image_cache
          ∧ (st2.text_cache = st.text_cache ∨
              ∃ resp parsed, reply = some resp ∧ extract_json_from_text resp = some parsed
                ∧ parsed.isTruthy = true ∧ parse_success_result parsed = .ok r
                ∧ st2.text_cache = (h text, r) :: st.text_cache))
    ∧ (∀ (h : String → String) (st : SessionState) (text : String),
        cacheLookup st.text_cache (h text) = none →
        classify_text h none st text = .ok (heuristic_classify text, st))
    ∧ (∀ (h : String → String) (st : SessionState) (text resp : String) (parsed : Json)
        (r2 : ClassificationResult),
        cacheLookup st.text_cache (h text) = none →
        extract_json_from_text resp = some parsed → parsed.isTruthy = true →
        parse_success_result parsed = .ok r2 →
        classify_text h (some resp) st text
          = .ok (r2, { st with text_cache := (h text, r2) :: st.text_cache }))
    ∧ (∀ (pil : List Nat → Option (List Nat)) (ocr : List Nat → String)
        (h : List Nat → String) (cap rep : Option String) (st : SessionState)
        (bytes : List Nat) (r : ClassificationResult) (st2 : SessionState),
        classify_image pil ocr h cap rep st bytes = .ok (r, st2) →
        st2.text_cache = st.text_cache
          ∧ (st2.image_cache = st.image_cache ∨
              ∃ resp parsed, rep = some resp ∧ extract_json_from_text resp = some parsed
                ∧ parsed.isTruthy = true ∧ parse_success_result parsed = .ok r
                ∧ st2.image_cache = (h (preprocess_image pil bytes), r) :: st.image_cache)) := by
  refine ⟨?_, ?_, ?_, ?_⟩
  · intro h reply st text r st2 hok
    rcases classify_text_ok_cases hok with ⟨_, hst⟩ | ⟨_, _, hst⟩ |
      ⟨_, hst, resp, parsed, hrep, hex, ht, hp⟩
    · subst hst; exact ⟨rfl, Or.inl rfl⟩
    · subst hst; exact ⟨rfl, Or.inl rfl⟩
    · subst hst
      exact ⟨rfl, Or.inr ⟨resp, parsed, hrep, hex, ht, hp, rfl⟩⟩
  · intro h st text hc
    exact classify_text_miss_none hc
  · intro h st text resp parsed r2 hc he ht hp
    exact classify_text_miss_parsed_ok hc he ht hp
  · intro pil ocr h cap rep st bytes r st2 hok
    rcases classify_image_ok_cases hok with ⟨_, hst⟩ | ⟨_, _, hst⟩ |
      ⟨_, hst, resp, parsed, hrep, hex, ht, hp⟩
    · subst hst; exact ⟨rfl, Or.inl rfl⟩
    · subst hst; exact ⟨rfl, Or.inl rfl⟩
    · subst hst
      exact ⟨rfl, Or.inr ⟨resp, parsed, hrep, hex, ht, hp, rfl⟩⟩

/-- C10, witness: the no-store clause applied to a concrete degraded
call on the empty cache. -/
theorem C10_witness :
    cacheLookup emptyState.text_cache ((fun _ => "") "banana peel") = none
      ∧ classify_text (fun _ => "") none emptyState "banana peel"
        = .ok (heuristic_classify "banana peel", emptyState) :=
  ⟨rfl, C10_cache_frame.2.1 (fun _ => "") emptyState "banana peel" rfl⟩

end WasteSorter
